import Mathlib

/-!
# Verification of the neutral-news backend core pipeline

Shallow embedding of the ingestion / deduplication / brief-generation
pipeline of the `neutral-newz-backend` repository, together with proofs
settling the frozen claims C1–C10.

Conventions:
* JavaScript strings are Lean `String`s; JS string truthiness (`if (s)`)
  becomes `s ≠ ""`.
* JS numbers are embedded as `ℚ` (exact arithmetic) or `ℤ`/`ℕ` where the
  source only ever holds integers; timestamps (`Date.now()`,
  `article.publishedAt.getTime()`) are `ℤ` milliseconds passed as
  parameters.
* In-memory `Map`s become functions `String → Option _` or association
  lists, as noted at each definition.
-/

set_option maxRecDepth 40000

namespace NeutralNews

/-- `\w` of a JavaScript regex: ASCII letters, digits, underscore. -/
def isWordChar (c : Char) : Bool :=
  c.isAlphanum || c = '_'

/-- Counts maximal runs of word characters in a character list; the flag
records whether the previous character was a word character.  This is the
number of matches of the JS regex `/\b\w+\b/g`. -/
def countWordRuns : List Char → Bool → Nat
  | [], _ => 0
  | c :: cs, inWord =>
    if isWordChar c then
      (if inWord then 0 else 1) + countWordRuns cs true
    else
      countWordRuns cs false

/-- `AIService.countWords` (src/services/aiService.ts:453-455):
`(text.trim().match(/\b\w+\b/g) || []).length`.  Trimming does not change
the number of word runs, so it is omitted. -/
def countWords (s : String) : Nat :=
  countWordRuns s.data false

/-- Splitting on runs of whitespace, exactly as the JS
`text.split(/\s+/)`: a leading (resp. trailing) whitespace run produces a
leading (resp. trailing) empty piece, and interior runs are collapsed.
`acc` holds the current token reversed; `inRun` records whether the
previous character belonged to an already-emitted whitespace run. -/
def splitRuns : List Char → List Char → Bool → List String
  | [], acc, _ => [String.mk acc.reverse]
  | c :: cs, acc, inRun =>
    if c.isWhitespace then
      if inRun then splitRuns cs acc true
      else String.mk acc.reverse :: splitRuns cs [] true
    else splitRuns cs (c :: acc) false

/-- Duplicate removal keeping the first occurrence (`seen` accumulates the
values already emitted), mirroring insertion order of a JS
`Set`/`Map`/object. -/
def dedupFirstGo {α : Type} [DecidableEq α] : List α → List α → List α
  | [], _ => []
  | a :: l, seen =>
    if a ∈ seen then dedupFirstGo l seen
    else a :: dedupFirstGo l (a :: seen)

/-- Duplicate removal keeping the first occurrence. -/
def dedupFirst {α : Type} [DecidableEq α] (l : List α) : List α :=
  dedupFirstGo l []

/-- JS `toLowerCase()` over the ASCII strings the pipeline handles. -/
def lowerChars (l : List Char) : List Char :=
  l.map Char.toLower

/-- `new Set(text.toLowerCase().split(/\s+/))`: the distinct lowercased
whitespace-separated tokens of a string. -/
def wordSet (s : String) : List String :=
  dedupFirst (splitRuns (lowerChars s.data) [] false)

/-- Whether `pat` starts the character list. -/
def startsWithChars : List Char → List Char → Bool
  | _, [] => true
  | [], _ :: _ => false
  | c :: cs, p :: ps => c = p && startsWithChars cs ps

/-- Whether `pat` occurs as a contiguous substring. -/
def hasSubChars : List Char → List Char → Bool
  | [], pat => pat.isEmpty
  | l@(_ :: cs), pat => startsWithChars l pat || hasSubChars cs pat

/-- JS `String.prototype.split(sep)` for a single-character separator
(also the behaviour of Lean's `String.splitOn` for such separators):
splits at every occurrence, keeping empty pieces. -/
def splitAtChar (sep : Char) : List Char → List (List Char)
  | [] => [[]]
  | c :: cs =>
    match splitAtChar sep cs with
    | [] => [[]]
    | t :: ts => if c = sep then [] :: t :: ts else (c :: t) :: ts

/-- JS `Array.prototype.join(sep)`. -/
def joinWith (sep : String) : List String → String
  | [] => ""
  | [x] => x
  | x :: y :: xs => x ++ sep ++ joinWith sep (y :: xs)

/-- Decimal digits of `n`, most significant first; `fuel` only bounds the
recursion depth (any `fuel ≥ n` is enough). -/
def natDigitsGo : Nat → Nat → List Char
  | 0, _ => []
  | _ + 1, 0 => []
  | fuel + 1, n => natDigitsGo fuel (n / 10) ++ [Char.ofNat (48 + n % 10)]

/-- Decimal rendering of a natural number. -/
def natToStr (n : Nat) : String :=
  if n = 0 then "0" else String.mk (natDigitsGo n n)

/-- Decimal rendering of an integer, as JS string interpolation of a
timestamp produces it. -/
def intToStr (i : Int) : String :=
  if i < 0 then "-" ++ natToStr i.natAbs else natToStr i.toNat

/-!
## Data model

`NewsArticle` (src/types/index.ts): the fields used by the pipeline.
`publishedAt` and `processedAt` are epoch milliseconds.
-/

structure NewsArticle where
  id : String
  title : String
  description : String
  content : String
  url : String
  source : String
  category : String
  publishedAt : Int
  tags : List String
deriving DecidableEq, Repr, Inhabited

/-- `article.category || 'US_NATIONAL'` (deduplicationService.ts:314,326). -/
def catOf (a : NewsArticle) : String :=
  if a.category = "" then "US_NATIONAL" else a.category

/-!
## DeduplicationService: similarity
-/

/-- `[...words1].filter(x => words2.has(x))` of `calculateTextSimilarity`
(deduplicationService.ts:224): the intersection size. -/
def interCount (text1 text2 : String) : Nat :=
  ((wordSet text1).filter (fun x => x ∈ wordSet text2)).length

/-- `new Set([...words1, ...words2])` of `calculateTextSimilarity`
(deduplicationService.ts:225): the union size. -/
def unionCount (text1 text2 : String) : Nat :=
  (dedupFirst (wordSet text1 ++ wordSet text2)).length

/-- `calculateTextSimilarity` (deduplicationService.ts:220-228): Jaccard
similarity of the lowercased whitespace-token sets. -/
def calculateTextSimilarity (text1 text2 : String) : ℚ :=
  if unionCount text1 text2 > 0 then
    (interCount text1 text2 : ℚ) / unionCount text1 text2
  else 0

/-- A parsed URL: hostname plus pathname, as produced by `new URL(u)`. -/
structure ParsedUrl where
  host : String
  path : String
deriving DecidableEq, Repr

/-- Model of the WHATWG `new URL(u)` constructor for the plain
`http(s)://host/path` URLs the similarity pass sees: strips the scheme,
splits the remainder at the first `/` into hostname and pathname, and
fails (the `catch` branch of the source) on any other scheme. -/
def parseUrl (u : String) : Option ParsedUrl :=
  let rest :=
    if startsWithChars u.data "http://".data then some (u.data.drop 7)
    else if startsWithChars u.data "https://".data then some (u.data.drop 8)
    else none
  match rest with
  | none => none
  | some r =>
    let host := r.takeWhile (· ≠ '/')
    let path := r.dropWhile (· ≠ '/')
    if host.isEmpty then none else some ⟨String.mk host, String.mk path⟩

/-- `pathname.split('/').filter(Boolean)`: the nonempty path segments. -/
def pathSegs (p : ParsedUrl) : List String :=
  ((splitAtChar '/' p.path.data).map String.mk).filter (· ≠ "")

/-- `calculateUrlSimilarity` (deduplicationService.ts:233-253). -/
def calculateUrlSimilarity (url1 url2 : String) : ℚ :=
  match parseUrl url1, parseUrl url2 with
  | some p1, some p2 =>
    if p1.host ≠ p2.host then 0
    else
      let path1 := pathSegs p1
      let path2 := pathSegs p2
      if path1.length = 0 ∧ path2.length = 0 then 1
      else if path1.length = 0 ∨ path2.length = 0 then 1/2
      else
        let common := path1.filter (fun s => s ∈ path2)
        (common.length : ℚ) / (max path1.length path2.length)
  | _, _ => 0  -- `new URL` threw; the catch branch returns 0

/-- `DEDUP_SIMILARITY_THRESHOLD`.
Modelled from the spec: `src/utils/constants.ts` is absent from the
sources; §4.F gives the value 0.82. -/
def DEDUP_SIMILARITY_THRESHOLD : ℚ := 41/50

/-- `calculateSimilarity` (deduplicationService.ts:181-215).  The
similarity cache is pure memoisation and is omitted.  A field enters the
weighted sum only when truthy (nonempty) on both sides. -/
def calculateSimilarity (article1 article2 : NewsArticle) : ℚ :=
  let step1 : ℚ × ℚ :=
    if article1.title ≠ "" ∧ article2.title ≠ "" then
      (calculateTextSimilarity article1.title article2.title * (2/5), 2/5)
    else (0, 0)
  let step2 : ℚ × ℚ :=
    if article1.content ≠ "" ∧ article2.content ≠ "" then
      (step1.1 + calculateTextSimilarity article1.content article2.content * (2/5),
       step1.2 + 2/5)
    else step1
  let step3 : ℚ × ℚ :=
    if article1.url ≠ "" ∧ article2.url ≠ "" then
      (step2.1 + calculateUrlSimilarity article1.url article2.url * (1/5),
       step2.2 + 1/5)
    else step2
  if step3.2 > 0 then step3.1 / step3.2 else 0

/-- The spec's formula for the weighted similarity (§4.F): the 0.4 title /
0.4 content / 0.2 URL combination divided by the sum of the weights of the
fields present on both sides. -/
def specSimilarity (a1 a2 : NewsArticle) : ℚ :=
  let tPresent := a1.title ≠ "" ∧ a2.title ≠ ""
  let cPresent := a1.content ≠ "" ∧ a2.content ≠ ""
  let uPresent := a1.url ≠ "" ∧ a2.url ≠ ""
  let num := (if tPresent then (2/5) * calculateTextSimilarity a1.title a2.title else 0)
    + (if cPresent then (2/5) * calculateTextSimilarity a1.content a2.content else 0)
    + (if uPresent then (1/5) * calculateUrlSimilarity a1.url a2.url else 0)
  let den : ℚ := (if tPresent then 2/5 else 0) + (if cPresent then 2/5 else 0)
    + (if uPresent then 1/5 else 0)
  if den > 0 then num / den else 0

/-!
## DeduplicationService: scoring, clustering, fair distribution
-/

/-- Official source ids (deduplicationService.ts:285). -/
def officialSources : List String :=
  ["white-house", "state-dept", "defense-dept", "federal-reserve", "un-news"]

/-- `calculateArticleScore` (deduplicationService.ts:275-296).  `now` is
`Date.now()` in milliseconds. -/
def calculateArticleScore (now : Int) (article : NewsArticle) : ℚ :=
  let contentScore : ℚ :=
    if article.content ≠ "" then min ((article.content.length : ℚ) / 1000) 2 else 0
  let sourceScore : ℚ :=
    if article.source ≠ "" ∧ article.source ∈ officialSources then 3 else 0
  let hoursSincePublished : ℚ := ((now - article.publishedAt : ℤ) : ℚ) / (1000 * 60 * 60)
  contentScore + sourceScore + max 0 (5 - hoursSincePublished)

/-- `selectBestArticle` (deduplicationService.ts:258-270): highest score
first; the source's `Array.prototype.sort` is stable (V8), which
`List.mergeSort` matches. -/
def selectBestArticle (now : Int) (articles : List NewsArticle) : NewsArticle :=
  match articles with
  | [] => default
  | [a] => a
  | a :: rest =>
    let sorted := (a :: rest).mergeSort
      (fun x y => calculateArticleScore now y ≤ calculateArticleScore now x)
    sorted.headD a

/-- The similar-group collected for the head article `a` in
`removeSimilarArticles` (deduplicationService.ts:100-112): `a` plus every
later unprocessed article with similarity strictly above the threshold. -/
def similarGroup (a : NewsArticle) (rest : List NewsArticle) : List NewsArticle :=
  a :: rest.filter (fun b => DEDUP_SIMILARITY_THRESHOLD < calculateSimilarity a b)

/-- `removeSimilarArticles` (deduplicationService.ts:91-120).  The
`processed` set of the source is rendered by removing each group's members
from the remainder of the scan: a later article joins the earliest
cluster whose representative is strictly more similar than the threshold,
and each cluster contributes its best member.  `fuel` only bounds the
recursion (the remaining list never grows), keeping the definition
structurally recursive. -/
def removeSimilarGo (now : Int) : Nat → List NewsArticle → List NewsArticle
  | _, [] => []
  | 0, l => l
  | fuel + 1, a :: rest =>
    let remaining := rest.filter
      (fun b => ¬ DEDUP_SIMILARITY_THRESHOLD < calculateSimilarity a b)
    selectBestArticle now (similarGroup a rest) :: removeSimilarGo now fuel remaining

/-- `removeSimilarArticles`, with enough fuel for the whole list. -/
def removeSimilarArticles (now : Int) (articles : List NewsArticle) : List NewsArticle :=
  removeSimilarGo now articles.length articles

/-- Quota constants.
Modelled from the spec: `src/utils/constants.ts` is absent from the
sources; §4.G gives `DAILY_ARTICLE_LIMIT = 150`. -/
def DAILY_ARTICLE_LIMIT : Nat := 150

/-- Modelled from the spec: `src/utils/constants.ts` is absent from the
sources; §4.G gives `MAX_ARTICLES_PER_CATEGORY = 50`. -/
def MAX_ARTICLES_PER_CATEGORY : Nat := 50

/-- Modelled from the spec: `src/utils/constants.ts` is absent from the
sources; §4.G gives the target split `1/3` per category. -/
def CATEGORY_DISTRIBUTION : List (String × ℚ) :=
  [("US_NATIONAL", 1/3), ("INTERNATIONAL", 1/3), ("FINANCE_MACRO", 1/3)]

/-- `countByCategory` (deduplicationService.ts:324-330), read off at one
category. -/
def countByCategory (articles : List NewsArticle) (c : String) : Nat :=
  (articles.filter (fun a => catOf a = c)).length

/-- The `existingArticles.filter(article => article.publishedAt >= today)`
filter (deduplicationService.ts:133-135, 342-344); `midnight` is the local
midnight computed by `today.setHours(0,0,0,0)`. -/
def existingToday (existingArticles : List NewsArticle) (midnight : Int) : List NewsArticle :=
  existingArticles.filter (fun a => midnight ≤ a.publishedAt)

/-- `calculateRemainingCapacity` (deduplicationService.ts:335-356).  The
first parameter is unused in the source as well.  `Int.toNat` renders
`Math.max(0, ·)`. -/
def calculateRemainingCapacity (_newArticles existingArticles : List NewsArticle)
    (midnight : Int) : List (String × Nat) :=
  CATEGORY_DISTRIBUTION.map (fun cr =>
    (cr.1, (⌊(DAILY_ARTICLE_LIMIT : ℚ) * cr.2⌋
            - (countByCategory (existingToday existingArticles midnight) cr.1 : Int)).toNat))

/-- The category keys in first-occurrence order: `Object.entries` of the
object built by `groupByCategory` (deduplicationService.ts:312-319)
iterates string keys in insertion order. -/
def categoryKeys (articles : List NewsArticle) : List String :=
  dedupFirst (articles.map catOf)

/-- The group stored under key `c` by `groupByCategory`: the articles with
that (defaulted) category, in input order. -/
def categoryGroup (articles : List NewsArticle) (c : String) : List NewsArticle :=
  articles.filter (fun a => catOf a = c)

/-- `sortArticlesByImportance` (deduplicationService.ts:301-307). -/
def sortArticlesByImportance (now : Int) (articles : List NewsArticle) : List NewsArticle :=
  articles.mergeSort (fun x y => calculateArticleScore now y ≤ calculateArticleScore now x)

/-- The per-category selection loop of `distributeArticlesFairly`
(deduplicationService.ts:148-167): for each category in insertion order,
take the best `min(MAX_ARTICLES_PER_CATEGORY, remainingCapacity[c] || 0)`
articles (the `continue` on a non-positive cap coincides with taking 0). -/
def selectPerCategory (articles existingArticles : List NewsArticle)
    (midnight now : Int) : List NewsArticle :=
  let capacity := calculateRemainingCapacity articles existingArticles midnight
  ((categoryKeys articles).map (fun c =>
    let maxAllowed := min MAX_ARTICLES_PER_CATEGORY ((capacity.lookup c).getD 0)
    (sortArticlesByImportance now (categoryGroup articles c)).take maxAllowed)).flatten

/-- The final truncation of `distributeArticlesFairly`
(deduplicationService.ts:169-173): `distributed.splice(DAILY_ARTICLE_LIMIT)`
keeps the first `DAILY_ARTICLE_LIMIT` elements. -/
def truncateUnion (distributed : List NewsArticle) : List NewsArticle :=
  if distributed.length > DAILY_ARTICLE_LIMIT
  then distributed.take DAILY_ARTICLE_LIMIT
  else distributed

/-- `distributeArticlesFairly` (deduplicationService.ts:125-176). -/
def distributeArticlesFairly (articles existingArticles : List NewsArticle)
    (midnight now : Int) : List NewsArticle :=
  truncateUnion (selectPerCategory articles existingArticles midnight now)

/-!
## RSSService: circuit breaker

The `failedFeeds` map (rssService.ts:14) becomes a function
`String → Option CircuitStatus`; `Map.set`/`Map.delete` become pointwise
updates.
-/

/-- The per-feed record stored in `failedFeeds`. -/
structure CircuitStatus where
  failures : Nat
  lastFailure : Int
  circuitOpen : Bool
deriving DecidableEq, Repr

/-- The circuit-breaker registry. -/
def CBMap : Type := String → Option CircuitStatus

/-- `this.failedFeeds.set(feedId, status)`. -/
def cbSet (m : CBMap) (feedId : String) (v : CircuitStatus) : CBMap :=
  fun k => if k = feedId then some v else m k

/-- `this.failedFeeds.delete(feedId)`. -/
def cbDelete (m : CBMap) (feedId : String) : CBMap :=
  fun k => if k = feedId then none else m k

/-- `circuitBreakerTimeout` (rssService.ts:13): 5 minutes. -/
def circuitBreakerTimeout : Int := 300000

/-- `circuitBreakerThreshold` (rssService.ts:12). -/
def circuitBreakerThreshold : Nat := 5

/-- `isCircuitOpen` (rssService.ts:222-238).  Returns the admission answer
together with the possibly-updated registry (the expiry branch deletes the
entry as a side effect); `now` is `Date.now()`. -/
def isCircuitOpen (now : Int) (m : CBMap) (feedId : String) : Bool × CBMap :=
  match m feedId with
  | none => (false, m)
  | some status =>
    if status.circuitOpen then
      if now - status.lastFailure > circuitBreakerTimeout then
        (false, cbDelete m feedId)
      else
        (true, m)
    else
      (false, m)

/-- `recordFailure` (rssService.ts:240-251). -/
def recordFailure (now : Int) (m : CBMap) (feedId : String) : CBMap :=
  let status := (m feedId).getD ⟨0, 0, false⟩
  let failures := status.failures + 1
  cbSet m feedId
    ⟨failures, now,
     if failures ≥ circuitBreakerThreshold then true else status.circuitOpen⟩

/-- `recordSuccess` (rssService.ts:253-255). -/
def recordSuccess (m : CBMap) (feedId : String) : CBMap :=
  cbDelete m feedId

/-- `resetCircuitBreaker` (rssService.ts:280-283). -/
def resetCircuitBreaker (m : CBMap) (feedId : String) : CBMap :=
  cbDelete m feedId

/-!
## RSSService: fetch attempts, status classification, retry backoff

One HTTP attempt is abstracted by its observable outcome.  `axios` with
`validateStatus: (status) => status < 500` (rssService.ts:63) delivers any
response with status < 500 and throws otherwise; the source then throws
explicitly on 403/404 (rssService.ts:68-71), and `parseString` may throw.
Every throw lands in the one `catch` of the attempt loop
(rssService.ts:96-119), which retries while attempts remain.
-/

/-- The outcome of a single HTTP attempt, as far as `fetchFeed` can
observe it: a transport-level failure (timeout, DNS, refused connection —
all thrown by axios), or a response with a status code and a flag telling
whether the body parses as RSS. -/
inductive AttemptOutcome where
  | transport : AttemptOutcome
  | response : Nat → Bool → AttemptOutcome
deriving DecidableEq, Repr

/-- Whether one attempt of the `fetchFeed` loop returns successfully:
the response must have status < 500 (axios `validateStatus`), must not be
403/404 (the explicit throw), and must parse. -/
def attemptSucceeds : AttemptOutcome → Bool
  | .transport => false
  | .response status parseOk =>
    decide (status < 500) && !(status = 403 || status = 404) && parseOk

/-- The result of one `fetchFeed` invocation: whether it succeeded, how
many attempts it made, the backoff delays it slept (in order), and the
value of the instance field `this.retryDelay` when the invocation
returns. -/
structure FetchRun where
  success : Bool
  attemptsMade : Nat
  delays : List ℚ
  finalDelay : ℚ
deriving DecidableEq, Repr

/-- The attempt loop of `fetchFeed` (rssService.ts:46-120) with
`retryAttempts = 3`: `oracle n` is the outcome of the `n`-th attempt
(1-based), `remaining` the attempts left, `d` the current value of the
instance field `this.retryDelay`.  A failed non-final attempt sleeps `d`
and then executes `this.retryDelay *= 1.5` (rssService.ts:114-118). -/
def fetchGo (oracle : Nat → AttemptOutcome) (attempt remaining : Nat) (d : ℚ) : FetchRun :=
  match remaining with
  | 0 => ⟨false, 0, [], d⟩
  | 1 =>
    if attemptSucceeds (oracle attempt) then ⟨true, 1, [], d⟩
    else ⟨false, 1, [], d⟩
  | r + 2 =>
    if attemptSucceeds (oracle attempt) then ⟨true, 1, [], d⟩
    else
      let rest := fetchGo oracle (attempt + 1) (r + 1) (d * (3/2))
      ⟨rest.success, rest.attemptsMade + 1, d :: rest.delays, rest.finalDelay⟩

/-- One invocation of `fetchFeed`, starting from instance state
`this.retryDelay = d`. -/
def fetchFeedRun (oracle : Nat → AttemptOutcome) (d : ℚ) : FetchRun :=
  fetchGo oracle 1 3 d

/-- `retryDelay` as initialised in the constructor (rssService.ts:11):
2000 ms.  It is an instance field, not a local of `fetchFeed`. -/
def initialRetryDelay : ℚ := 2000

/-- An oracle whose first `f` attempts fail with HTTP 500 and which
succeeds afterwards; used to describe the backoff schedule. -/
def oracleFailFirst (f : Nat) : Nat → AttemptOutcome :=
  fun n => if n ≤ f then .response 500 true else .response 200 true

/-!
## AIService: word-count repair and gate

`REWRITER_CONFIG` (aiService.ts:5-13) fixes `briefMinWords = 400` and
`briefMaxWords = 500`; the deterministic tail of `processRSSArticle`
(aiService.ts:343-355) plus the word-count clause of `gateArticle`
(aiService.ts:496-512) is a pure function of the brief body that came out
of the LLM expansion loop.
-/

/-- `REWRITER_CONFIG.briefMinWords` (aiService.ts:11). -/
def briefMinWords : Nat := 400

/-- `REWRITER_CONFIG.briefMaxWords` (aiService.ts:12). -/
def briefMaxWords : Nat := 500

/-- The fallback paragraph appended by `processRSSArticle`
(aiService.ts:349), verbatim. -/
def fallbackContent : String :=
  " This development represents a significant development in the region and has broader implications for international relations and regional stability. The situation continues to evolve as various stakeholders respond to these developments. Additionally, this event has important policy implications that may affect future decision-making processes and international cooperation efforts. The economic and social impacts of this development are likely to be felt across multiple sectors and regions. Furthermore, this development has important legal and regulatory implications that may require careful consideration by policymakers and stakeholders. The long-term consequences of this development could affect multiple generations and require sustained attention from international organizations and governments."

/-- The additional paragraph appended by the word-count clause of
`gateArticle` (aiService.ts:503), verbatim. -/
def additionalGateContent : String :=
  " This development has broader implications for the region and international relations. The situation continues to evolve as various stakeholders respond to these developments. Furthermore, this development has important legal and regulatory implications that may require careful consideration by policymakers and stakeholders. The long-term consequences of this development could affect multiple generations and require sustained attention from international organizations and governments."

/-- The truncation branch of `gateArticle` (aiService.ts:506-511):
`article.brief.split(' ').slice(0, briefMaxWords).join(' ') + '...'`.
JS `split(' ')` splits at every single space, which is `String.splitOn`. -/
def truncateAtMaxWords (s : String) : String :=
  joinWith " " (((splitAtChar ' ' s.data).map String.mk).take briefMaxWords) ++ "..."

/-- The deterministic word-count repair applied to the brief body after
the LLM expansion loop: the final check of `processRSSArticle`
(aiService.ts:343-355) followed by the word-count clause of `gateArticle`
(aiService.ts:496-512).  Throughout the source `article.wordCount` equals
`countWords(article.brief)` at this point, so the gate's
`article.wordCount || this.countWords(...)` read is `countWords s1`. -/
def finalizeBrief (s : String) : String :=
  let s1 := if countWords s < briefMinWords then s ++ fallbackContent else s
  let wc := countWords s1
  if wc < briefMinWords then s1 ++ additionalGateContent
  else if wc > briefMaxWords then truncateAtMaxWords s1
  else s1

/-!
## AIService: source lists
-/

/-- The source-list completion of `generateBrief` (aiService.ts:128-137):
make sure the originating article's URL appears among the processed
sources. -/
def ensureOriginalSource (sources : List String) (url : String) : List String :=
  if sources.length > 0 then
    if url ∈ sources then sources else sources ++ [url]
  else [url]

/-- `REWRITER_CONFIG.minSources` (aiService.ts:9). -/
def minSources : Nat := 1

/-- The source-list portion of `gateArticle` (aiService.ts:464-484): append
the raw article's URL when truthy and missing, then pad up to `minSources`
with the raw URL and finally with a generic fallback source. -/
def gateSources (sources : List String) (rawUrl : String) : List String :=
  let s1 :=
    if rawUrl ≠ "" ∧ rawUrl ∉ sources then sources ++ [rawUrl] else sources
  let s2 :=
    if s1.length < minSources then
      if rawUrl ≠ "" then s1 ++ [rawUrl] else s1
    else s1
  if s2.length < minSources then s2 ++ ["https://neutral-news.com/source"] else s2

/-!
## AIService: tags and brief construction
-/

/-- Building the `Map<string, number>` of tag occurrences
(aiService.ts:537-540 and briefService.ts:113-119): association list in
first-insertion order. -/
def bumpTag (m : List (String × Nat)) (t : String) : List (String × Nat) :=
  if m.any (fun p => p.1 = t) then
    m.map (fun p => if p.1 = t then (p.1, p.2 + 1) else p)
  else m ++ [(t, 1)]

/-- The tag-count map for a list of tags. -/
def tagCounts (tags : List String) : List (String × Nat) :=
  tags.foldl bumpTag []

/-- Keep the tags occurring more than once, most frequent first, top 5
(aiService.ts:542-546; identical logic in briefService.ts:122-126).
`Array.prototype.sort` is stable, matching `List.mergeSort`. -/
def frequentTags (counts : List (String × Nat)) : List String :=
  ((((counts.filter (fun p => p.2 > 1)).mergeSort
      (fun x y => y.2 ≤ x.2)).map (fun p => p.1)).take 5)

/-- `AIService.extractTags` (aiService.ts:534-547). -/
def extractTags (articles : List NewsArticle) : List String :=
  frequentTags (tagCounts (articles.flatMap (fun a => a.tags)))

/-- The result of `parseGPTResponse`/`gateArticle`: the processed article
the brief is built from (aiService.ts:418-427). -/
structure ProcessedArticle where
  headline : String
  brief : String
  sources : List String
  wordCount : Nat
deriving DecidableEq, Repr

/-- The persisted brief record (src/types/index.ts), restricted to the
fields the claims speak about. -/
structure NewsBrief where
  id : String
  title : String
  summary : String
  sourceArticles : List String
  category : String
  tags : List String
  status : String
deriving DecidableEq, Repr, Inhabited

/-- `generateBriefId` (aiService.ts:528-532). -/
def generateBriefId (category title : String) (now : Int) : String :=
  let titleWords := joinWith "-" (((splitAtChar ' ' title.data).map String.mk).take 3)
  let cleaned := String.mk (titleWords.data.filter
    (fun c => c.isAlphanum || c = '-'))
  category ++ "-" ++ cleaned ++ "-" ++ intToStr now

/-- The `NewsBrief` built by `AIService.generateBrief` (aiService.ts:140-160)
from the processed article and the input articles `first :: rest`:
`sourceArticles` is `articles.map(a => a.url)` (line 144) and `tags` is
`extractTags(articles)` (line 147). -/
def aiGenerateBrief (p : ProcessedArticle) (now : Int)
    (first : NewsArticle) (rest : List NewsArticle) : NewsBrief :=
  let articles := first :: rest
  { id := generateBriefId (catOf first) p.headline now
    title := if p.headline ≠ "" then p.headline
             else if first.title ≠ "" then first.title else "News Update"
    summary := p.brief
    sourceArticles := articles.map (fun a => a.url)
    category := first.category
    tags := extractTags articles
    status := "published" }

/-- The minimal fallback brief built inline in
`processingService.ts:673-684` when both AI and basic generation fail:
`sourceArticles: [article.url]`. -/
def minimalFallbackBrief (article : NewsArticle) (now : Int) : NewsBrief :=
  { id := "fallback-" ++ article.id ++ "-" ++ intToStr now
    title := article.title
    summary := "Brief summary of: " ++ article.title
    sourceArticles := [article.url]
    category := article.category
    tags := article.tags
    status := "published" }

/-!
## BriefService: the basic fallback brief

`processingService` falls back to `briefService.generateBriefs([article])`
(processingService.ts:665) when the AI path throws; the brief it persists
is built by `createBriefFromArticles` (briefService.ts:46-77).
`MIN_ARTICLES_FOR_BRIEF` and `MAX_BRIEF_LENGTH` live in the absent
`src/utils/constants.ts` and the spec does not name them, so they are
passed as parameters.
-/

/-- `isCommonWord` (briefService.ts:135-142). -/
def isCommonWord (word : String) : Bool :=
  word ∈ ["the", "and", "or", "but", "in", "on", "at", "to", "for", "of",
    "with", "by", "from", "up", "about", "into", "through", "during",
    "before", "after", "above", "below", "between", "among", "within",
    "without"]

/-- `generateBriefTitle` (briefService.ts:79-88). -/
def generateBriefTitle (article : NewsArticle) : String :=
  let words := ((splitAtChar ' ' article.title.data).map String.mk).filter
    (fun w => w.length > 3 && !isCommonWord (String.mk (lowerChars w.data)))
  let keyWords := words.take (min 5 words.length)
  String.mk ((joinWith " " keyWords).data.filter
    (fun c => isWordChar c || c.isWhitespace))

/-- `generateSummary` (briefService.ts:90-110); `maxBriefLength` is the
absent constant `MAX_BRIEF_LENGTH`. -/
def generateSummary (maxBriefLength : Nat) (articles : List NewsArticle) : String :=
  let descriptions := ((articles.take 3).map (fun a => a.description)).filter
    (fun d => d.length > 20)
  if descriptions.length = 0 then
    "Multiple news sources report on recent developments in this area."
  else
    let summary := joinWith " " descriptions
    if summary.length > maxBriefLength then
      String.mk (summary.data.take (maxBriefLength - 3)) ++ "..."
    else summary

/-- `mergeTags` (briefService.ts:112-127): same frequency logic as
`AIService.extractTags`. -/
def mergeTags (allTags : List (List String)) : List String :=
  frequentTags (tagCounts allTags.flatten)

/-- `BriefService.generateBriefId` (briefService.ts:129-133). -/
def basicBriefId (category : String) (tags : List String) (now : Int) : String :=
  let tagString := String.mk ((joinWith "-" (tags.take 2)).data.filter
    (fun c => c.isAlphanum))
  category ++ "-" ++ tagString ++ "-" ++ intToStr now

/-- `createBriefFromArticles` (briefService.ts:46-77).  The source's
`articles.sort(...)` mutates the array in place, so the
`sourceArticles: articles.map(a => a.id)` of line 69 maps over the sorted
array; crucially it collects article **ids**, not URLs.
`minArticles` is the absent constant `MIN_ARTICLES_FOR_BRIEF`. -/
def createBriefFromArticles (minArticles maxBriefLength : Nat) (now : Int)
    (articles : List NewsArticle) : Option NewsBrief :=
  if articles.length < minArticles then none
  else
    let sortedArticles := articles.mergeSort
      (fun a b => b.publishedAt ≤ a.publishedAt)
    -- `articles.sort(...)` mutates in place, so the later reads of
    -- `articles` (lines 56-57, 69) all see the sorted array.
    let category := (sortedArticles.headD default).category
    let tags := mergeTags (sortedArticles.map (fun a => a.tags))
    some
      { id := basicBriefId category tags now
        title := generateBriefTitle (sortedArticles.headD default)
        summary := generateSummary maxBriefLength sortedArticles
        sourceArticles := sortedArticles.map (fun a => a.id)
        category := category
        tags := tags
        status := "pending" }

/-!
## DatabaseService: novelty check
-/

/-- The Postgres `ilike '%title%'` filter used by `articleExists`
(databaseService.ts:1123): case-insensitive substring containment. -/
def ilikeContains (hay pat : String) : Bool :=
  hasSubChars (lowerChars hay.data) (lowerChars pat.data)

/-- A stored `news_articles` row, restricted to the columns the novelty
check reads. -/
structure StoredArticle where
  id : String
  title : String
  url : String
deriving DecidableEq, Repr

/-- `DatabaseService.calculateTitleSimilarity` (databaseService.ts:1147-1153):
`words1.size / words2.size` where `words1` comes from the **candidate**
title (first argument) and `words2` from the stored one. -/
def calculateTitleSimilarity (title1 title2 : String) : ℚ :=
  let words1 := wordSet title1
  let words2 := wordSet title2
  if words1.length > 0 ∧ words2.length > 0 then
    (words1.length : ℚ) / words2.length
  else 0

/-- The `.ilike('%title%').limit(5)` query of `articleExists`
(databaseService.ts:1120-1124): the first at most 5 stored rows whose
title contains the candidate title, in table order. -/
def retrievedMatches (stored : List StoredArticle) (title : String) : List StoredArticle :=
  ((stored.filter (fun a => ilikeContains a.title title)).take 5)

/-- `articleExists` (databaseService.ts:1103-1142) over an in-memory table
of stored rows: URL equality first; otherwise the title query, of whose
results only the **first** is compared, with strict `> 0.8`. -/
def articleExists (stored : List StoredArticle) (url title : String) : Bool :=
  if stored.any (fun a => a.url = url) then true
  else if title ≠ "" then
    match retrievedMatches stored title with
    | [] => false
    | m :: _ => decide (calculateTitleSimilarity title m.title > 4/5)
  else false

/-- The novelty similarity as the spec states it (§4.D): word-set ratio
`|W_old| / |W_new|` between a stored title and the candidate title.
Modelled from the spec for comparison with the source's
`calculateTitleSimilarity`. -/
def specTitleRatio (oldTitle newTitle : String) : ℚ :=
  ((wordSet oldTitle).length : ℚ) / ((wordSet newTitle).length)

/-!
## Helper lemmas
-/

theorem not_mem_seen_of_mem_dedupFirstGo {α : Type} [DecidableEq α] {x : α} :
    ∀ {l seen : List α}, x ∈ dedupFirstGo l seen → x ∉ seen := by
  intro l
  induction l with
  | nil => intro seen h; simp [dedupFirstGo] at h
  | cons a l ih =>
    intro seen h
    rw [dedupFirstGo] at h
    by_cases hmem : a ∈ seen
    · rw [if_pos hmem] at h
      exact ih h
    · rw [if_neg hmem] at h
      rcases List.mem_cons.mp h with h | h
      · exact h ▸ hmem
      · exact fun hx => (ih h) (List.mem_cons_of_mem a hx)

theorem dedupFirstGo_nodup {α : Type} [DecidableEq α] :
    ∀ (l seen : List α), (dedupFirstGo l seen).Nodup := by
  intro l
  induction l with
  | nil => intro seen; simp [dedupFirstGo]
  | cons a l ih =>
    intro seen
    rw [dedupFirstGo]
    by_cases hmem : a ∈ seen
    · rw [if_pos hmem]; exact ih seen
    · rw [if_neg hmem]
      refine List.nodup_cons.mpr ⟨fun hmm => ?_, ih _⟩
      exact (not_mem_seen_of_mem_dedupFirstGo hmm) (List.mem_cons_self a seen)

theorem dedupFirst_nodup {α : Type} [DecidableEq α] (l : List α) :
    (dedupFirst l).Nodup :=
  dedupFirstGo_nodup l []

/-- A nodup left factor disjoint from `seen` survives `dedupFirstGo` of an
append, so the union of a Jaccard computation is at least as long as the
first word set. -/
theorem length_le_dedupFirstGo_append {α : Type} [DecidableEq α] :
    ∀ (l1 l2 seen : List α), l1.Nodup → (∀ x ∈ l1, x ∉ seen) →
      l1.length ≤ (dedupFirstGo (l1 ++ l2) seen).length := by
  intro l1
  induction l1 with
  | nil => intro l2 seen _ _; exact Nat.zero_le _
  | cons a l1 ih =>
    intro l2 seen hnd hdisj
    rw [List.cons_append, dedupFirstGo, if_neg (hdisj a (List.mem_cons_self a l1))]
    simp only [List.length_cons, Nat.succ_le_succ_iff]
    refine ih l2 (a :: seen) (List.nodup_cons.mp hnd).2 fun x hx hxs => ?_
    rcases List.mem_cons.mp hxs with h | h
    · exact (List.nodup_cons.mp hnd).1 (h ▸ hx)
    · exact hdisj x (List.mem_cons_of_mem a hx) h

theorem length_le_dedupFirst_append {α : Type} [DecidableEq α]
    (l1 l2 : List α) (h : l1.Nodup) :
    l1.length ≤ (dedupFirst (l1 ++ l2)).length :=
  length_le_dedupFirstGo_append l1 l2 [] h (by simp)

theorem interCount_le_unionCount (t1 t2 : String) :
    interCount t1 t2 ≤ unionCount t1 t2 := by
  unfold interCount unionCount
  exact le_trans (List.length_filter_le _ _)
    (length_le_dedupFirst_append _ _ (dedupFirst_nodup _))

theorem calculateTextSimilarity_nonneg (t1 t2 : String) :
    0 ≤ calculateTextSimilarity t1 t2 := by
  unfold calculateTextSimilarity
  split
  · positivity
  · exact le_refl 0

theorem calculateTextSimilarity_le_one (t1 t2 : String) :
    calculateTextSimilarity t1 t2 ≤ 1 := by
  unfold calculateTextSimilarity
  split
  · rename_i hpos
    rw [div_le_one (by exact_mod_cast hpos)]
    exact_mod_cast interCount_le_unionCount t1 t2
  · exact zero_le_one

theorem calculateUrlSimilarity_nonneg (u1 u2 : String) :
    0 ≤ calculateUrlSimilarity u1 u2 := by
  unfold calculateUrlSimilarity
  split
  · dsimp only
    split_ifs <;> positivity
  · exact le_refl 0

theorem calculateUrlSimilarity_le_one (u1 u2 : String) :
    calculateUrlSimilarity u1 u2 ≤ 1 := by
  unfold calculateUrlSimilarity
  split
  · rename_i p1 p2 h1 h2
    dsimp only
    split_ifs with h0 h1 h2
    · exact zero_le_one
    · exact le_refl 1
    · norm_num
    · push_neg at h1 h2
      have hp1 : 0 < (pathSegs p1).length := Nat.pos_of_ne_zero h2.1
      have hmax : 0 < max (pathSegs p1).length (pathSegs p2).length :=
        lt_of_lt_of_le hp1 (le_max_left _ _)
      rw [div_le_one (by exact_mod_cast hmax)]
      have hc : ((pathSegs p1).filter (fun s => s ∈ pathSegs p2)).length
          ≤ (pathSegs p1).length := List.length_filter_le _ _
      exact_mod_cast le_trans hc (le_max_left _ _)
  · exact zero_le_one

theorem calculateSimilarity_eq_spec (a1 a2 : NewsArticle) :
    calculateSimilarity a1 a2 = specSimilarity a1 a2 := by
  unfold calculateSimilarity specSimilarity
  dsimp only
  split_ifs <;> (try norm_num at *) <;> ring_nf

theorem calculateSimilarity_nonneg (a1 a2 : NewsArticle) :
    0 ≤ calculateSimilarity a1 a2 := by
  have ht := calculateTextSimilarity_nonneg a1.title a2.title
  have hc := calculateTextSimilarity_nonneg a1.content a2.content
  have hu := calculateUrlSimilarity_nonneg a1.url a2.url
  unfold calculateSimilarity
  dsimp only
  split_ifs <;> (try norm_num at *) <;> linarith

theorem calculateSimilarity_le_one (a1 a2 : NewsArticle) :
    calculateSimilarity a1 a2 ≤ 1 := by
  have ht := calculateTextSimilarity_le_one a1.title a2.title
  have ht0 := calculateTextSimilarity_nonneg a1.title a2.title
  have hc := calculateTextSimilarity_le_one a1.content a2.content
  have hc0 := calculateTextSimilarity_nonneg a1.content a2.content
  have hu := calculateUrlSimilarity_le_one a1.url a2.url
  have hu0 := calculateUrlSimilarity_nonneg a1.url a2.url
  unfold calculateSimilarity
  dsimp only
  split_ifs <;> (try norm_num at *) <;>
    (try rw [div_le_one (by norm_num)]) <;> linarith

/-!
## Claim C4: circuit-breaker state machine
-/

/-- Claim C4: for every source id the circuit breaker behaves as the
specified state machine: with no entry admission is granted; a recorded
failure increments the failure count, sets the last-failure time, and
opens the circuit once failures reach the threshold 5; while open,
admission is denied until `now − last_failure` exceeds 300000 ms, at
which point the entry is discarded and the check already answers as
`closed`; a recorded success or an administrative reset unconditionally
deletes the entry. -/
theorem C4_circuit_breaker_state_machine (m : CBMap) (feedId : String)
    (now : Int) (st : CircuitStatus) :
    (m feedId = none → isCircuitOpen now m feedId = (false, m))
    ∧ (∃ s', (recordFailure now m feedId) feedId = some s'
        ∧ s'.failures = ((m feedId).getD ⟨0, 0, false⟩).failures + 1
        ∧ s'.lastFailure = now
        ∧ (s'.failures ≥ circuitBreakerThreshold → s'.circuitOpen = true))
    ∧ (m feedId = some st → st.circuitOpen = true →
        ¬ now - st.lastFailure > circuitBreakerTimeout →
        isCircuitOpen now m feedId = (true, m))
    ∧ (m feedId = some st → st.circuitOpen = true →
        now - st.lastFailure > circuitBreakerTimeout →
        (isCircuitOpen now m feedId).1 = false
          ∧ ((isCircuitOpen now m feedId).2) feedId = none)
    ∧ (recordSuccess m feedId) feedId = none
    ∧ (resetCircuitBreaker m feedId) feedId = none := by
  refine ⟨fun hnone => ?_, ?_, fun hsome hopen hnotexp => ?_,
    fun hsome hopen hexp => ?_, ?_, ?_⟩
  · simp [isCircuitOpen, hnone]
  · refine ⟨⟨((m feedId).getD ⟨0, 0, false⟩).failures + 1, now,
      if ((m feedId).getD ⟨0, 0, false⟩).failures + 1 ≥ circuitBreakerThreshold
      then true else ((m feedId).getD ⟨0, 0, false⟩).circuitOpen⟩, ?_, rfl, rfl, ?_⟩
    · simp [recordFailure, cbSet]
    · intro h
      simp only at h ⊢
      rw [if_pos h]
  · simp [isCircuitOpen, hsome, hopen, if_neg hnotexp]
  · simp [isCircuitOpen, hsome, hopen, if_pos hexp, cbDelete]
  · simp [recordSuccess, cbDelete]
  · simp [resetCircuitBreaker, cbDelete]

/-- A concrete registry holding one open entry for feed `"f"`:
five failures, last failure at t = 0. -/
def cbExample : CBMap :=
  cbSet (fun _ => none) "f" ⟨5, 0, true⟩

/-- Witness for C4: at `now = 300001` the open entry of `cbExample` has
expired, so admission is granted and the entry is discarded; on the empty
registry admission is granted; a failure recorded on the empty registry
yields one failure with the current timestamp. -/
theorem C4_circuit_breaker_state_machine_witness :
    ((isCircuitOpen 300001 cbExample "f").1 = false
      ∧ ((isCircuitOpen 300001 cbExample "f").2) "f" = none)
    ∧ isCircuitOpen 5 (fun _ => none) "f" = (false, (fun _ => none))
    ∧ (isCircuitOpen 200000 cbExample "f" = (true, cbExample)) := by
  have h1 := (C4_circuit_breaker_state_machine cbExample "f" 300001 ⟨5, 0, true⟩).2.2.2.1
    (by simp [cbExample, cbSet]) rfl (by norm_num [circuitBreakerTimeout])
  have h2 := (C4_circuit_breaker_state_machine (fun _ => none) "f" 5 ⟨5, 0, true⟩).1 rfl
  have h3 := (C4_circuit_breaker_state_machine cbExample "f" 200000 ⟨5, 0, true⟩).2.2.1
    (by simp [cbExample, cbSet]) rfl (by norm_num [circuitBreakerTimeout])
  exact ⟨h1, h2, h3⟩

/-!
## Claim C8: HTTP 4xx classification in the fetch loop

The source's comment (rssService.ts:69) says client errors are not
retried, but the `throw` lands in the catch block that retries; and a
4xx status other than 403/404 is not treated as an error at all.
-/

/-- Claim C8 (code evaluated at the failing inputs): a feed answering
HTTP 404 on every attempt is retried to the full 3 attempts instead of
stopping after the first, and a feed answering HTTP 429 with a parseable
body is treated as a success rather than as `http_client_error`. -/
theorem C8_client_error_is_retried :
    (fetchFeedRun (fun _ => .response 404 true) initialRetryDelay).attemptsMade = 3
    ∧ (fetchFeedRun (fun _ => .response 404 true) initialRetryDelay).success = false
    ∧ (fetchFeedRun (fun _ => .response 429 true) initialRetryDelay).success = true := by
  refine ⟨?_, ?_, ?_⟩ <;>
    simp [fetchFeedRun, fetchGo, attemptSucceeds, initialRetryDelay]

/-!
## Claim C9: retry backoff is instance state, not per-invocation state
-/

/-- Claim C9 (counterexample): `this.retryDelay` is a field of the service
instance and is never reset, so an invocation that suffers one failed
attempt (delays `[2000]`, leaving the field at 3000) makes the next
invocation's first retry sleep 3000 ms, not the 2000 ms the claim
promises for every invocation. -/
theorem C9_backoff_counterexample :
    (fetchFeedRun (oracleFailFirst 1) initialRetryDelay).delays = [2000]
    ∧ (fetchFeedRun (oracleFailFirst 1) initialRetryDelay).finalDelay = 3000
    ∧ (fetchFeedRun (oracleFailFirst 1)
        ((fetchFeedRun (oracleFailFirst 1) initialRetryDelay).finalDelay)).delays = [3000]
    ∧ (3000 : ℚ) ≠ initialRetryDelay := by
  refine ⟨?_, ?_, ?_, ?_⟩ <;>
    norm_num [fetchFeedRun, fetchGo, attemptSucceeds, oracleFailFirst, initialRetryDelay]

/-- Claim C9 as amended: within one invocation the delays do start from
the instance field's current value `d` and multiply by 1.5 after each
failed non-final attempt (`min f 2` sleeps for `f` initial failures), but
the multiplied value stays in the instance field, so the next invocation
starts from `d · 1.5^(min f 2)`, not from 2000. -/
theorem C9_backoff_schedule (d : ℚ) (f : Nat) :
    (fetchFeedRun (oracleFailFirst f) d).delays
      = (List.range (min f 2)).map (fun k => d * (3/2) ^ k)
    ∧ (fetchFeedRun (oracleFailFirst f) d).finalDelay = d * (3/2) ^ (min f 2) := by
  match f with
  | 0 =>
    norm_num [fetchFeedRun, fetchGo, attemptSucceeds, oracleFailFirst]
  | 1 =>
    norm_num [fetchFeedRun, fetchGo, attemptSucceeds, oracleFailFirst,
      List.range_succ]
  | n + 2 =>
    have h1 : (1 ≤ n + 2) := by omega
    have h2 : (2 ≤ n + 2) := by omega
    constructor <;>
      · norm_num [fetchFeedRun, fetchGo, attemptSucceeds, oracleFailFirst,
          h1, h2, List.range_succ]
        split <;> (try norm_num) <;> ring_nf

/-!
## Claim C10: brief tags of a single duplicate-free article
-/

theorem tagCounts_all_one :
    ∀ (ts : List String) (m : List (String × Nat)),
      ts.Nodup → (∀ p ∈ m, p.2 = 1) → (∀ t ∈ ts, ∀ p ∈ m, p.1 ≠ t) →
      ∀ p ∈ ts.foldl bumpTag m, p.2 = 1 := by
  intro ts
  induction ts with
  | nil => intro m _ hm _ p hp; exact hm p hp
  | cons t ts ih =>
    intro m hnd hm hfresh p hp
    rw [List.foldl_cons] at hp
    have hany : m.any (fun p => p.1 = t) = false := by
      rw [List.any_eq_false]
      intro q hq
      simpa using hfresh t (List.mem_cons_self t ts) q hq
    have hb : bumpTag m t = m ++ [(t, 1)] := by
      unfold bumpTag
      rw [hany]
      simp
    rw [hb] at hp
    refine ih (m ++ [(t, 1)]) (List.nodup_cons.mp hnd).2 ?_ ?_ p hp
    · intro q hq
      rcases List.mem_append.mp hq with h | h
      · exact hm q h
      · simp only [List.mem_singleton] at h
        simp [h]
    · intro t' ht' q hq
      rcases List.mem_append.mp hq with h | h
      · exact hfresh t' (List.mem_cons_of_mem t ht') q h
      · simp only [List.mem_singleton] at h
        subst h
        simp only
        exact fun he => (List.nodup_cons.mp hnd).1 (he ▸ ht')

theorem extractTags_single_of_nodup (a : NewsArticle) (h : a.tags.Nodup) :
    extractTags [a] = [] := by
  unfold extractTags frequentTags
  have hflat : ([a].flatMap fun a => a.tags) = a.tags := by simp
  rw [hflat]
  have hall : ∀ p ∈ tagCounts a.tags, p.2 = 1 :=
    tagCounts_all_one a.tags [] h (by simp) (by simp)
  have hfilter : (tagCounts a.tags).filter (fun p => p.2 > 1) = [] := by
    rw [List.filter_eq_nil_iff]
    intro p hp
    simp [hall p hp]
  rw [hfilter]
  simp

/-- Claim C10: a brief generated by `AIService.generateBrief` from exactly
one article whose tag list has no duplicates gets an empty tag list,
because `extractTags` keeps only tags occurring more than once across the
contributing articles. -/
theorem C10_single_article_brief_tags (p : ProcessedArticle) (now : Int)
    (a : NewsArticle) (h : a.tags.Nodup) :
    (aiGenerateBrief p now a []).tags = [] := by
  have : (aiGenerateBrief p now a []).tags = extractTags [a] := rfl
  rw [this]
  exact extractTags_single_of_nodup a h

/-- A concrete single article with distinct tags, for the C10 witness. -/
def taggedArticle : NewsArticle :=
  ⟨"npr-1a-2b", "Senate votes on budget", "desc", "content",
   "http://npr.org/x", "npr-news", "US_NATIONAL", 0, ["politics", "congress"]⟩

/-- Witness for C10 at a concrete article with two distinct tags. -/
theorem C10_single_article_brief_tags_witness :
    (["politics", "congress"] : List String).Nodup
    ∧ (aiGenerateBrief ⟨"h", "b", [], 0⟩ 0 taggedArticle []).tags = [] :=
  ⟨by decide, C10_single_article_brief_tags ⟨"h", "b", [], 0⟩ 0 taggedArticle (by decide)⟩

/-!
## Claim C3: the word-count repair does not always reach MIN_WORDS
-/

/-- Whether a character list is empty or starts with a non-word
character, so that concatenating it to the right of any string adds its
own word runs without merging. -/
def startsNonWordB : List Char → Bool
  | [] => true
  | c :: _ => !isWordChar c

theorem countWordRuns_append (l1 l2 : List Char) (flag : Bool)
    (h : startsNonWordB l2 = true) :
    countWordRuns (l1 ++ l2) flag = countWordRuns l1 flag + countWordRuns l2 false := by
  induction l1 generalizing flag with
  | nil =>
    cases l2 with
    | nil => simp [countWordRuns]
    | cons c cs =>
      have hc : isWordChar c = false := by simpa [startsNonWordB] using h
      simp [countWordRuns, hc]
  | cons c l1 ih =>
    by_cases hc : isWordChar c = true
    · simp only [List.cons_append, countWordRuns, if_pos hc, List.append_eq, ih,
        Nat.add_assoc]
    · simp only [List.cons_append, countWordRuns,
        if_neg (by simp_all : ¬ isWordChar c = true), List.append_eq, ih]

theorem countWords_append (s t : String) (h : startsNonWordB t.data = true) :
    countWords (s ++ t) = countWords s + countWords t := by
  unfold countWords
  rw [String.data_append]
  exact countWordRuns_append _ _ _ h

/-- Claim C3 (counterexample): a brief body that leaves the expansion loop
empty (an LLM answer without a `==BRIEF==` section parses to `""` and a
failed expansion breaks the loop) receives the fallback filler and the
gate's additional paragraph, yet the persisted word count stays below
`MIN_WORDS = 400`, contradicting the claim that the pipeline ends inside
`[MIN_WORDS, MAX_WORDS]`. -/
theorem C3_short_body_counterexample :
    countWords (finalizeBrief "") = 166 ∧ 166 < briefMinWords := by
  constructor
  · decide
  · decide

/-- Claim C3 as amended: the filler appended by `processRSSArticle` adds
exactly its own word count (105), after which the gate appends its own
fixed paragraph (61 more words) when the sum is still short — so the
final count is above `MIN_WORDS` only when the pre-filler count is, up to
the two fixed paragraphs, already close enough; bodies whose count plus
fillers stays below 400 persist below `MIN_WORDS`, and bodies pushed past
`MAX_WORDS` are truncated to their first 500 space-separated tokens plus
`...`. -/
theorem C3_word_count_repair (s : String) (h : countWords s < briefMinWords) :
    countWords (s ++ fallbackContent) = countWords s + countWords fallbackContent
    ∧ (countWords s + countWords fallbackContent < briefMinWords →
        countWords (finalizeBrief s)
          = countWords s + countWords fallbackContent
              + countWords additionalGateContent)
    ∧ (briefMinWords ≤ countWords s + countWords fallbackContent →
        countWords s + countWords fallbackContent ≤ briefMaxWords →
        countWords (finalizeBrief s) = countWords s + countWords fallbackContent)
    ∧ (briefMaxWords < countWords s + countWords fallbackContent →
        finalizeBrief s = truncateAtMaxWords (s ++ fallbackContent)) := by
  have hfb : startsNonWordB fallbackContent.data = true := by decide
  have hag : startsNonWordB additionalGateContent.data = true := by decide
  have h1 : countWords (s ++ fallbackContent)
      = countWords s + countWords fallbackContent := countWords_append _ _ hfb
  refine ⟨h1, fun hlt => ?_, fun hge hle => ?_, fun hgt => ?_⟩
  · have e1 : finalizeBrief s = (s ++ fallbackContent) ++ additionalGateContent := by
      unfold finalizeBrief
      dsimp only
      rw [if_pos h, if_pos (by rw [h1]; exact hlt)]
    rw [e1, countWords_append _ _ hag, h1]
  · have e1 : finalizeBrief s = s ++ fallbackContent := by
      unfold finalizeBrief
      dsimp only
      rw [if_pos h,
        if_neg (by rw [h1]; simp only [briefMinWords, briefMaxWords] at *; omega),
        if_neg (by rw [h1]; simp only [briefMinWords, briefMaxWords] at *; omega)]
    rw [e1, h1]
  · have e1 : finalizeBrief s = truncateAtMaxWords (s ++ fallbackContent) := by
      unfold finalizeBrief
      dsimp only
      rw [if_pos h,
        if_neg (by rw [h1]; simp only [briefMinWords, briefMaxWords] at *; omega),
        if_pos (by rw [h1]; exact hgt)]
    exact e1

/-- Witness for the amended C3 at the empty body: the filler brings the
count from 0 to 105 and the gate's paragraph to 166, still short of 400. -/
theorem C3_word_count_repair_witness :
    countWords "" < briefMinWords
    ∧ countWords ("" ++ fallbackContent)
        = countWords "" + countWords fallbackContent :=
  ⟨by decide, (C3_word_count_repair "" (by decide)).1⟩

/-!
## Claim C6: the novelty check consults only the first title match,
with the inverted ratio and a strict threshold
-/

/-- A stored row whose long title substring-contains the candidate title
`"alpha beta"` but shares only a quarter of its word set. -/
def storedLong : StoredArticle :=
  ⟨"sa", "alpha beta gamma delta eta theta iota kappa", "http://old/a"⟩

/-- A stored row whose title equals the candidate title exactly. -/
def storedSame : StoredArticle :=
  ⟨"sb", "alpha beta", "http://old/b"⟩

/-- Claim C6 (counterexample): with the two stored rows above and
candidate title `"alpha beta"` (no URL match), the claim's condition
holds — the retrieved matches contain a row of spec-ratio
`|W_old|/|W_new| = 1 ≥ 0.8` (and even the first has ratio 4) — yet
`articleExists` answers `false` (new), because it compares only the first
match and computes `|W_new|/|W_old| = 2/8`, which is not `> 0.8`. -/
theorem C6_counterexample :
    articleExists [storedLong, storedSame] "http://new/x" "alpha beta" = false
    ∧ retrievedMatches [storedLong, storedSame] "alpha beta"
        = [storedLong, storedSame]
    ∧ ([storedLong, storedSame].any (fun a => a.url = "http://new/x")) = false
    ∧ specTitleRatio storedSame.title "alpha beta" = 1
    ∧ specTitleRatio storedLong.title "alpha beta" = 4
    ∧ calculateTitleSimilarity "alpha beta" storedLong.title = 1/4 := by
  have h1 : (wordSet "alpha beta").length = 2 := by decide
  have h2 : (wordSet storedSame.title).length = 2 := by decide
  have h3 : (wordSet storedLong.title).length = 8 := by decide
  have hsim : calculateTitleSimilarity "alpha beta" storedLong.title = 1/4 := by
    unfold calculateTitleSimilarity
    dsimp only
    rw [h1, h3]
    norm_num
  refine ⟨?_, by decide, by decide, ?_, ?_, hsim⟩
  · unfold articleExists
    rw [show ([storedLong, storedSame].any (fun a => a.url = "http://new/x")) = false
        from by decide]
    rw [if_neg (by simp), if_pos (show ("alpha beta" : String) ≠ "" from by decide),
      show retrievedMatches [storedLong, storedSame] "alpha beta"
          = storedLong :: [storedSame] from by decide]
    show decide (calculateTitleSimilarity "alpha beta" storedLong.title > 4/5) = false
    rw [hsim]
    exact decide_eq_false (by norm_num)
  · unfold specTitleRatio
    rw [h2, h1]
    norm_num
  · unfold specTitleRatio
    rw [h3, h1]
    norm_num

/-- Claim C6 as amended: when the candidate URL matches no stored row and
the title is nonempty, `articleExists` reports "already exists" exactly
when the **first** retrieved title match `m` satisfies the strict
inequality `|W_new| / |W_old| > 0.8` — the word-set ratio of the
candidate over the stored title, the reciprocal of the spec's ratio — and
the other retrieved matches are never consulted. -/
theorem C6_novelty_first_match_only (stored : List StoredArticle)
    (url title : String)
    (hurl : stored.any (fun a => a.url = url) = false) (ht : title ≠ "")
    (m : StoredArticle) (rest : List StoredArticle)
    (hm : retrievedMatches stored title = m :: rest) :
    (articleExists stored url title = true
      ↔ calculateTitleSimilarity title m.title > 4/5)
    ∧ ((wordSet title).length > 0 → (wordSet m.title).length > 0 →
        calculateTitleSimilarity title m.title * specTitleRatio m.title title = 1) := by
  constructor
  · unfold articleExists
    rw [hurl, if_neg (by simp), if_pos ht, hm]
    simp
  · intro hn ho
    unfold calculateTitleSimilarity specTitleRatio
    rw [if_pos ⟨hn, ho⟩]
    have hn' : ((wordSet title).length : ℚ) ≠ 0 := by exact_mod_cast Nat.pos_iff_ne_zero.mp hn
    have ho' : ((wordSet m.title).length : ℚ) ≠ 0 := by exact_mod_cast Nat.pos_iff_ne_zero.mp ho
    field_simp

/-- Witness for the amended C6 at the concrete stored rows: the check
answers `false`, matching the first match's ratio 1/4 not exceeding
0.8. -/
theorem C6_novelty_first_match_only_witness :
    (articleExists [storedLong, storedSame] "http://new/x" "alpha beta" = true
      ↔ calculateTitleSimilarity "alpha beta" storedLong.title > 4/5) :=
  (C6_novelty_first_match_only [storedLong, storedSame] "http://new/x" "alpha beta"
    (by decide) (by decide) storedLong [storedSame] (by decide)).1

/-!
## Claim C5: the similarity threshold comparison is strict
-/

/-- An article whose title and content each share 41 of 50 distinct words
with `fedArticleB`, giving both Jaccard factors the value 41/50; the URL
factor is switched off by `fedArticleB`'s empty URL.  This input is
chosen so that the source's IEEE-754 evaluation lands *exactly* on its
threshold constant: in doubles, `41/50` evaluates to the double literal
`0.82` (bits `0x3FEA3D70A3D70A3D`), `0.82 * 0.4` rounds to the exactly
representable `0.328`, `0.328 + 0.328 = 0.656` and `0.4 + 0.4 = 0.8` are
exact, and `0.656 / 0.8` rounds back to the double `0.82` — so the
program's `similarity > DEDUP_SIMILARITY_THRESHOLD` compares the double
`0.82` with itself and is false, in agreement with the exact-rational
model's `41/50`. -/
def fedArticleA : NewsArticle :=
  ⟨"id1",
   "w1 w2 w3 w4 w5 w6 w7 w8 w9 w10 w11 w12 w13 w14 w15 w16 w17 w18 w19 w20 w21 w22 w23 w24 w25 w26 w27 w28 w29 w30 w31 w32 w33 w34 w35 w36 w37 w38 w39 w40 w41 x1 x2 x3 x4 x5 x6 x7 x8 x9",
   "",
   "w1 w2 w3 w4 w5 w6 w7 w8 w9 w10 w11 w12 w13 w14 w15 w16 w17 w18 w19 w20 w21 w22 w23 w24 w25 w26 w27 w28 w29 w30 w31 w32 w33 w34 w35 w36 w37 w38 w39 w40 w41 x1 x2 x3 x4 x5 x6 x7 x8 x9",
   "http://h", "s1", "FINANCE_MACRO", 0, []⟩

/-- The companion article: title and content are the 41 shared words, and
the URL is empty (falsy), so the URL factor is skipped on this pair. -/
def fedArticleB : NewsArticle :=
  ⟨"id2",
   "w1 w2 w3 w4 w5 w6 w7 w8 w9 w10 w11 w12 w13 w14 w15 w16 w17 w18 w19 w20 w21 w22 w23 w24 w25 w26 w27 w28 w29 w30 w31 w32 w33 w34 w35 w36 w37 w38 w39 w40 w41",
   "",
   "w1 w2 w3 w4 w5 w6 w7 w8 w9 w10 w11 w12 w13 w14 w15 w16 w17 w18 w19 w20 w21 w22 w23 w24 w25 w26 w27 w28 w29 w30 w31 w32 w33 w34 w35 w36 w37 w38 w39 w40 w41",
   "", "s2", "FINANCE_MACRO", 0, []⟩

theorem fedPair_similarity :
    calculateSimilarity fedArticleA fedArticleB = 41/50 := by
  have hti : interCount fedArticleA.title fedArticleB.title = 41 := by decide
  have htu : unionCount fedArticleA.title fedArticleB.title = 50 := by decide
  have hci : interCount fedArticleA.content fedArticleB.content = 41 := by decide
  have hcu : unionCount fedArticleA.content fedArticleB.content = 50 := by decide
  have htitle : calculateTextSimilarity fedArticleA.title fedArticleB.title
      = 41/50 := by
    unfold calculateTextSimilarity
    rw [hti, htu]
    norm_num
  have hcontent : calculateTextSimilarity fedArticleA.content fedArticleB.content
      = 41/50 := by
    unfold calculateTextSimilarity
    rw [hci, hcu]
    norm_num
  have c1 : fedArticleA.title ≠ "" ∧ fedArticleB.title ≠ "" := by decide
  have c2 : fedArticleA.content ≠ "" ∧ fedArticleB.content ≠ "" := by decide
  have c3 : ¬ (fedArticleA.url ≠ "" ∧ fedArticleB.url ≠ "") := by decide
  rw [calculateSimilarity_eq_spec]
  unfold specSimilarity
  simp only [if_pos c1, if_pos c2, if_neg c3, htitle, hcontent]
  norm_num

/-- Claim C5 (counterexample): the two articles above have weighted
similarity `(41/50 · 0.4 + 41/50 · 0.4) / (0.4 + 0.4)` — exactly the
threshold, in the source's own IEEE-754 doubles as well as in ℚ (see
`fedArticleA` for the step-by-step double rounding: every intermediate
is exact or rounds onto the double `0.82`).  The claim ("marked as a
duplicate exactly when the similarity is ≥ 0.82") demands that
`fedArticleB` join `fedArticleA`'s cluster — but the source compares with
strict `>` (deduplicationService.ts:108), so both articles survive the
similarity pass as separate uniques. -/
theorem C5_threshold_counterexample :
    calculateSimilarity fedArticleA fedArticleB = DEDUP_SIMILARITY_THRESHOLD
    ∧ removeSimilarArticles 0 [fedArticleA, fedArticleB]
        = [fedArticleA, fedArticleB]
    ∧ similarGroup fedArticleA [fedArticleB] = [fedArticleA] := by
  have hAB := fedPair_similarity
  refine ⟨hAB, ?_, ?_⟩
  · norm_num [removeSimilarArticles, removeSimilarGo, similarGroup,
      selectBestArticle, DEDUP_SIMILARITY_THRESHOLD, hAB]
  · norm_num [similarGroup, DEDUP_SIMILARITY_THRESHOLD, hAB]

/-- Claim C5 as amended: the weighted similarity equals the spec's
0.4/0.4/0.2 combination divided by the sum of the weights present on both
sides, always lies in `[0, 1]`, and a later article `b` joins `a`'s
cluster exactly when the similarity is **strictly greater** than 0.82. -/
theorem C5_similarity_marking (a b : NewsArticle) (rest : List NewsArticle)
    (hb : b ∈ rest) :
    calculateSimilarity a b = specSimilarity a b
    ∧ 0 ≤ calculateSimilarity a b ∧ calculateSimilarity a b ≤ 1
    ∧ (b ∈ rest.filter
          (fun x => DEDUP_SIMILARITY_THRESHOLD < calculateSimilarity a x)
        ↔ DEDUP_SIMILARITY_THRESHOLD < calculateSimilarity a b)
    ∧ similarGroup a rest
        = a :: rest.filter
            (fun x => DEDUP_SIMILARITY_THRESHOLD < calculateSimilarity a x) := by
  refine ⟨calculateSimilarity_eq_spec a b, calculateSimilarity_nonneg a b,
    calculateSimilarity_le_one a b, ⟨fun hmem => ?_, fun hgt => ?_⟩, rfl⟩
  · simpa using List.of_mem_filter hmem
  · exact List.mem_filter.mpr ⟨hb, by simpa using hgt⟩

/-- Witness for the amended C5 at the concrete pair: membership of
`fedArticleB` in the scan list and the `[0, 1]` bounds. -/
theorem C5_similarity_marking_witness :
    fedArticleB ∈ [fedArticleB]
    ∧ 0 ≤ calculateSimilarity fedArticleA fedArticleB
    ∧ calculateSimilarity fedArticleA fedArticleB ≤ 1 :=
  ⟨List.mem_singleton_self _,
   (C5_similarity_marking fedArticleA fedArticleB [fedArticleB]
     (List.mem_singleton_self _)).2.1,
   (C5_similarity_marking fedArticleA fedArticleB [fedArticleB]
     (List.mem_singleton_self _)).2.2.1⟩

/-!
## Claim C1: source lists of persisted briefs
-/

theorem gateSources_length (sources : List String) (rawUrl : String) :
    1 ≤ (gateSources sources rawUrl).length := by
  unfold gateSources minSources
  dsimp only
  split_ifs <;> simp_all
  exact List.length_pos.mpr (by assumption)

theorem gateSources_mem (sources : List String) (rawUrl : String) (h : rawUrl ≠ "") :
    rawUrl ∈ gateSources sources rawUrl := by
  unfold gateSources minSources
  dsimp only
  split_ifs <;> simp_all

theorem ensureOriginalSource_length (sources : List String) (url : String) :
    1 ≤ (ensureOriginalSource sources url).length := by
  unfold ensureOriginalSource
  split_ifs <;> simp_all
  omega

theorem ensureOriginalSource_mem (sources : List String) (url : String) :
    url ∈ ensureOriginalSource sources url := by
  unfold ensureOriginalSource
  split_ifs <;> simp_all

/-- Claim C1 as amended: briefs built by `AIService.generateBrief` and the
minimal inline fallback of `processingService` list at least one source
and contain the originating article's URL, and both source-completion
passes (`generateBrief` lines 128-137 and the gate) guarantee the URL is
present among the processed sources; but a brief built by
`BriefService.createBriefFromArticles` lists the contributing articles'
**ids**, so its source list need not contain the originating URL. -/
theorem C1_brief_sources (p : ProcessedArticle) (now : Int)
    (first : NewsArticle) (rest : List NewsArticle)
    (sources : List String) (rawUrl : String)
    (minArticles maxBriefLength : Nat) (b : NewsBrief)
    (hbasic : createBriefFromArticles minArticles maxBriefLength now (first :: rest)
        = some b) :
    1 ≤ (aiGenerateBrief p now first rest).sourceArticles.length
    ∧ first.url ∈ (aiGenerateBrief p now first rest).sourceArticles
    ∧ 1 ≤ (ensureOriginalSource sources rawUrl).length
    ∧ rawUrl ∈ ensureOriginalSource sources rawUrl
    ∧ 1 ≤ (gateSources sources rawUrl).length
    ∧ (rawUrl ≠ "" → rawUrl ∈ gateSources sources rawUrl)
    ∧ (minimalFallbackBrief first now).sourceArticles = [first.url]
    ∧ b.sourceArticles
        = ((first :: rest).mergeSort (fun x y => y.publishedAt ≤ x.publishedAt)).map
            (fun a => a.id) := by
  refine ⟨?_, ?_, ensureOriginalSource_length sources rawUrl,
    ensureOriginalSource_mem sources rawUrl, gateSources_length sources rawUrl,
    gateSources_mem sources rawUrl, rfl, ?_⟩
  · simp [aiGenerateBrief]
  · simp [aiGenerateBrief]
  · unfold createBriefFromArticles at hbasic
    split at hbasic
    · exact absurd hbasic (by simp)
    · rw [← Option.some.inj hbasic]

/-- A concrete single article flowing through the basic fallback path. -/
def basicArticle : NewsArticle :=
  ⟨"npr-x1-y2", "Senate Budget Vote Extended Debate",
   "a description that is long enough!", "content",
   "http://npr.org/articles/1", "npr-news", "US_NATIONAL", 0, ["politics"]⟩

/-- The brief that `createBriefFromArticles 1 500 0 [basicArticle]`
produces: its source list is the article id, not the URL. -/
def basicBrief : NewsBrief :=
  { id := "US_NATIONAL--0"
    title := "Senate Budget Vote Extended Debate"
    summary := "a description that is long enough!"
    sourceArticles := ["npr-x1-y2"]
    category := "US_NATIONAL"
    tags := []
    status := "pending" }

theorem createBasic_eq :
    createBriefFromArticles 1 500 0 [basicArticle] = some basicBrief := by
  unfold createBriefFromArticles
  rw [if_neg (by decide)]
  dsimp only
  rw [show ([basicArticle].mergeSort (fun a b => b.publishedAt ≤ a.publishedAt))
      = [basicArticle] from by simp]
  rw [show mergeTags (List.map (fun a => a.tags) [basicArticle]) = [] from by
    simp [mergeTags, frequentTags, tagCounts, bumpTag, basicArticle]]
  decide

/-- Claim C1 (counterexample): the brief persisted by the basic fallback
path for `basicArticle` has source list `["npr-x1-y2"]` — the article id —
and does not contain the originating article's URL. -/
theorem C1_basic_path_counterexample :
    createBriefFromArticles 1 500 0 [basicArticle] = some basicBrief
    ∧ basicBrief.sourceArticles = ["npr-x1-y2"]
    ∧ basicArticle.url = "http://npr.org/articles/1"
    ∧ basicArticle.url ∉ basicBrief.sourceArticles := by
  refine ⟨createBasic_eq, rfl, rfl, by decide⟩

/-- Witness for the amended C1 at `basicArticle`: the hypothesis of the
basic-path conjunct is discharged with the concrete brief, and the
URL-containment conjuncts are read off at concrete inputs. -/
theorem C1_brief_sources_witness :
    basicBrief.sourceArticles
      = (([basicArticle].mergeSort (fun x y => y.publishedAt ≤ x.publishedAt)).map
          (fun a => a.id))
    ∧ "http://x" ∈ ensureOriginalSource [] "http://x"
    ∧ 1 ≤ (gateSources [] "").length :=
  ⟨(C1_brief_sources ⟨"h", "b", [], 0⟩ 0 basicArticle [] [] "http://x" 1 500
      basicBrief createBasic_eq).2.2.2.2.2.2.2,
   (C1_brief_sources ⟨"h", "b", [], 0⟩ 0 basicArticle [] [] "http://x" 1 500
      basicBrief createBasic_eq).2.2.2.1,
   (C1_brief_sources ⟨"h", "b", [], 0⟩ 0 basicArticle [] [] "" 1 500
      basicBrief createBasic_eq).2.2.2.2.1⟩

/-!
## Claims C2 and C7: quota distribution and truncation
-/

/-- The per-category selection of `distributeArticlesFairly` for key `c`:
the best `min(MAX_ARTICLES_PER_CATEGORY, remainingCapacity[c] || 0)`
articles of the group stored under `c`. -/
def pickForCategory (articles existingArticles : List NewsArticle)
    (midnight now : Int) (c : String) : List NewsArticle :=
  let capacity := calculateRemainingCapacity articles existingArticles midnight
  (sortArticlesByImportance now (categoryGroup articles c)).take
    (min MAX_ARTICLES_PER_CATEGORY ((capacity.lookup c).getD 0))

theorem selectPerCategory_eq (articles existingArticles : List NewsArticle)
    (midnight now : Int) :
    selectPerCategory articles existingArticles midnight now
      = ((categoryKeys articles).map
          (pickForCategory articles existingArticles midnight now)).flatten := rfl

theorem catOf_of_mem_pick (articles existingArticles : List NewsArticle)
    (midnight now : Int) (c : String) (x : NewsArticle)
    (hx : x ∈ pickForCategory articles existingArticles midnight now c) :
    catOf x = c := by
  unfold pickForCategory at hx
  have h1 := List.take_subset _ _ hx
  have h2 := List.mem_mergeSort.mp h1
  have h3 := List.of_mem_filter h2
  simpa using h3

theorem length_pick_le (articles existingArticles : List NewsArticle)
    (midnight now : Int) (c : String) :
    (pickForCategory articles existingArticles midnight now c).length
      ≤ min MAX_ARTICLES_PER_CATEGORY
          (((calculateRemainingCapacity articles existingArticles midnight).lookup
              c).getD 0) := by
  unfold pickForCategory
  rw [List.length_take]
  exact min_le_left _ _

/-- The filtered length of the flattened per-key selections is bounded by
the bound of the one key equal to `c` (keys are distinct). -/
theorem length_filter_flatten_le (f : String → List NewsArticle)
    (hf : ∀ k x, x ∈ f k → catOf x = k)
    (bound : String → Nat) (hb : ∀ k, (f k).length ≤ bound k) (c : String) :
    ∀ keys : List String, keys.Nodup →
      (((keys.map f).flatten).filter (fun a => catOf a = c)).length ≤ bound c := by
  intro keys
  induction keys with
  | nil => simp
  | cons k keys ih =>
    intro hnd
    rw [List.map_cons, List.flatten_cons, List.filter_append, List.length_append]
    by_cases hkc : k = c
    · subst hkc
      have h2 : ((keys.map f).flatten).filter (fun a => catOf a = k) = [] := by
        rw [List.filter_eq_nil_iff]
        intro x hx
        rcases List.mem_flatten.mp hx with ⟨l, hl, hxl⟩
        rcases List.mem_map.mp hl with ⟨k', hk', rfl⟩
        simp only [decide_eq_true_eq]
        rw [hf k' x hxl]
        exact fun he => (List.nodup_cons.mp hnd).1 (he ▸ hk')
      rw [h2]
      simp only [List.length_nil, Nat.add_zero]
      exact le_trans (List.length_filter_le _ _) (hb k)
    · have h1 : (f k).filter (fun a => catOf a = c) = [] := by
        rw [List.filter_eq_nil_iff]
        intro x hx
        simp only [decide_eq_true_eq]
        rw [hf k x hx]
        exact hkc
      rw [h1]
      simp only [List.length_nil, Nat.zero_add]
      exact ih (List.nodup_cons.mp hnd).2

theorem length_filter_select_le (articles existingArticles : List NewsArticle)
    (midnight now : Int) (c : String) :
    ((selectPerCategory articles existingArticles midnight now).filter
        (fun a => catOf a = c)).length
      ≤ min MAX_ARTICLES_PER_CATEGORY
          (((calculateRemainingCapacity articles existingArticles midnight).lookup
              c).getD 0) := by
  rw [selectPerCategory_eq]
  exact length_filter_flatten_le _
    (catOf_of_mem_pick articles existingArticles midnight now)
    _ (length_pick_le articles existingArticles midnight now) c
    (categoryKeys articles) (dedupFirstGo_nodup _ _)

theorem lookup_capacity (existingArticles articles : List NewsArticle)
    (midnight : Int) (c : String) (r : ℚ) (hc : (c, r) ∈ CATEGORY_DISTRIBUTION) :
    ((calculateRemainingCapacity articles existingArticles midnight).lookup c).getD 0
      = (⌊(DAILY_ARTICLE_LIMIT : ℚ) * r⌋
          - (countByCategory (existingToday existingArticles midnight) c : Int)).toNat := by
  have hc' := hc
  simp only [CATEGORY_DISTRIBUTION, List.mem_cons, List.mem_singleton,
    Prod.mk.injEq, List.not_mem_nil, or_false] at hc'
  unfold calculateRemainingCapacity CATEGORY_DISTRIBUTION
  rcases hc' with ⟨rfl, rfl⟩ | ⟨rfl, rfl⟩ | ⟨rfl, rfl⟩ <;>
    simp [List.lookup]

/-- Claim C2: for every input batch and every category `c` of the target
split, the distributor selects at most
`min(MAX_ARTICLES_PER_CATEGORY, max(0, ⌊DAILY_ARTICLE_LIMIT·split c⌋ −
already_today c))` articles of category `c` — `already_today` counting
stored articles of that category published at or after local midnight —
and the returned list never exceeds `DAILY_ARTICLE_LIMIT` articles. -/
theorem C2_quota_bounds (articles existingArticles : List NewsArticle)
    (midnight now : Int) (c : String) (r : ℚ)
    (hc : (c, r) ∈ CATEGORY_DISTRIBUTION) :
    ((distributeArticlesFairly articles existingArticles midnight now).filter
        (fun a => catOf a = c)).length
      ≤ min MAX_ARTICLES_PER_CATEGORY
          ((⌊(DAILY_ARTICLE_LIMIT : ℚ) * r⌋
            - (countByCategory (existingToday existingArticles midnight) c : Int)).toNat)
    ∧ (distributeArticlesFairly articles existingArticles midnight now).length
        ≤ DAILY_ARTICLE_LIMIT := by
  constructor
  · have hsub : (distributeArticlesFairly articles existingArticles midnight now).Sublist
        (selectPerCategory articles existingArticles midnight now) := by
      unfold distributeArticlesFairly truncateUnion
      split_ifs
      · exact List.take_sublist _ _
      · exact List.Sublist.refl _
    have h1 := (hsub.filter (fun a => decide (catOf a = c))).length_le
    refine le_trans h1 ?_
    rw [← lookup_capacity existingArticles articles midnight c r hc]
    exact length_filter_select_le articles existingArticles midnight now c
  · unfold distributeArticlesFairly truncateUnion
    split_ifs with h
    · rw [List.length_take]
      exact min_le_left _ _
    · exact le_of_not_lt h

/-- Witness for C2 on the empty batch with the `US_NATIONAL` split
entry. -/
theorem C2_quota_bounds_witness :
    (("US_NATIONAL", (1 : ℚ)/3) ∈ CATEGORY_DISTRIBUTION)
    ∧ ((distributeArticlesFairly [] [] 0 0).filter
          (fun a => catOf a = "US_NATIONAL")).length
        ≤ min MAX_ARTICLES_PER_CATEGORY
            ((⌊(DAILY_ARTICLE_LIMIT : ℚ) * ((1 : ℚ)/3)⌋
              - (countByCategory (existingToday [] 0) "US_NATIONAL" : Int)).toNat)
    ∧ (distributeArticlesFairly [] [] 0 0).length ≤ DAILY_ARTICLE_LIMIT := by
  have hmem : ("US_NATIONAL", (1 : ℚ)/3) ∈ CATEGORY_DISTRIBUTION := by
    unfold CATEGORY_DISTRIBUTION
    exact List.mem_cons_self _ _
  exact ⟨hmem, (C2_quota_bounds [] [] 0 0 "US_NATIONAL" ((1 : ℚ)/3) hmem).1,
    (C2_quota_bounds [] [] 0 0 "US_NATIONAL" ((1 : ℚ)/3) hmem).2⟩

/-- An article scoring 0: empty content, non-official source, published
exactly 5 hours before `now = 0`. -/
def lowScoreArticle : NewsArticle :=
  ⟨"low", "t", "", "", "u", "s", "US_NATIONAL", -18000000, []⟩

/-- An article scoring 5: published at `now = 0`. -/
def highScoreArticle : NewsArticle :=
  ⟨"high", "t", "", "", "u", "s", "INTERNATIONAL", 0, []⟩

/-- A 151-article union: 150 zero-score articles followed by the single
highest-score article. -/
def oversizedUnion : List NewsArticle :=
  List.replicate 150 lowScoreArticle ++ [highScoreArticle]

theorem lowScoreArticle_score : calculateArticleScore 0 lowScoreArticle = 0 := by
  unfold calculateArticleScore
  dsimp only
  rw [if_neg (by decide), if_neg (by decide)]
  norm_num [lowScoreArticle]

theorem highScoreArticle_score : calculateArticleScore 0 highScoreArticle = 5 := by
  unfold calculateArticleScore
  dsimp only
  rw [if_neg (by decide), if_neg (by decide)]
  norm_num [highScoreArticle]

/-- Claim C7 (counterexample): on a union one past the limit, the
truncation of `distributeArticlesFairly` keeps the first 150 entries of
the concatenated per-category lists and drops the single highest-scoring
article — there is no category round-robin and the lowest-score items are
not dropped last. -/
theorem C7_truncation_counterexample :
    DAILY_ARTICLE_LIMIT < oversizedUnion.length
    ∧ truncateUnion oversizedUnion = List.replicate 150 lowScoreArticle
    ∧ highScoreArticle ∉ truncateUnion oversizedUnion
    ∧ calculateArticleScore 0 lowScoreArticle < calculateArticleScore 0 highScoreArticle := by
  have hlen : oversizedUnion.length = 151 := by
    simp [oversizedUnion]
  have htr : truncateUnion oversizedUnion = List.replicate 150 lowScoreArticle := by
    unfold truncateUnion
    rw [if_pos (by rw [hlen]; decide)]
    unfold oversizedUnion DAILY_ARTICLE_LIMIT
    exact List.take_left' (List.length_replicate 150 lowScoreArticle)
  refine ⟨by rw [hlen]; decide, htr, ?_, ?_⟩
  · rw [htr]
    intro hmem
    exact (by decide : highScoreArticle ≠ lowScoreArticle)
      (List.mem_replicate.mp hmem).2
  · rw [lowScoreArticle_score, highScoreArticle_score]
    norm_num

/-- Claim C7 as amended: whatever the union, the distributor returns
exactly the first `DAILY_ARTICLE_LIMIT` articles of the concatenated
per-category selections (categories in first-encounter order, each sorted
by descending score): the `splice` keeps a prefix and pays no attention
to scores or to category round-robin. -/
theorem C7_truncation_is_prefix (articles existingArticles : List NewsArticle)
    (midnight now : Int) :
    distributeArticlesFairly articles existingArticles midnight now
      = (selectPerCategory articles existingArticles midnight now).take
          DAILY_ARTICLE_LIMIT
    ∧ ∀ l : List NewsArticle, truncateUnion l = l.take DAILY_ARTICLE_LIMIT := by
  have h : ∀ l : List NewsArticle, truncateUnion l = l.take DAILY_ARTICLE_LIMIT := by
    intro l
    unfold truncateUnion
    split_ifs with hl
    · rfl
    · rw [List.take_of_length_le (le_of_not_lt hl)]
  exact ⟨h _, h⟩

end NeutralNews
